import Mathlib

/-!
Shallow embedding of the Flask student-management application (`app.py`):
the data model (User, StudentRecord, Assignment, Schedule), the role-gated
routes (student_record, edit_grades, upload_grades_csv, upload_assignment,
reminders, export_pdf, export_csv) and the helper logic they call
(werkzeug's secure_filename, Python int() parsing, csv writing, ISO-8601
timestamps). The database session is modelled as an explicit record of
entity lists; each route is a function from the database state and the
logged-in actor to a result, returning the new state where the route
mutates it.
-/

namespace App

/-- `User` model: id, username, password hash (opaque, not modelled further),
and role stored as an open string (`student`, `staff`, `professor`). -/
structure User where
  id : Int
  username : String
  role : String
deriving DecidableEq, Repr

/-- `StudentRecord` model: primary key, `user_id` foreign key, free-text grades. -/
structure StudentRecord where
  id : Int
  user_id : Int
  grades : String
deriving DecidableEq, Repr

/-- `Assignment` model: primary key, uploading student, sanitized filename and
the server path the file was saved to. -/
structure Assignment where
  id : Int
  student_id : Int
  filename : String
  filepath : String
deriving DecidableEq, Repr

/-- `Schedule` model: primary key, owner, event title and ISO-8601 time string. -/
structure Schedule where
  id : Int
  user_id : Int
  event : String
  time : String
deriving DecidableEq, Repr

/-- The database state: the four tables in insertion order, plus the next
auto-increment primary keys for the two tables the modelled routes insert into. -/
structure DB where
  users : List User
  records : List StudentRecord
  assignments : List Assignment
  schedules : List Schedule
  nextRecordId : Int
  nextAssignmentId : Int
deriving DecidableEq, Repr

/-- `User.query.filter_by(id=id, role='student').first()`: first user with the
given id and role `student`. -/
def findStudent (st : DB) (target : Int) : Option User :=
  st.users.find? (fun u => u.id == target && u.role == "student")

/-- `StudentRecord.query.filter_by(user_id=sid).first()`. -/
def findRecord (st : DB) (sid : Int) : Option StudentRecord :=
  st.records.find? (fun r => r.user_id == sid)

/-- `record.grades = grades` on the object returned by `.first()`: mutate the
first record whose `user_id` matches, leave the rest unchanged. -/
def updateFirstRecord : List StudentRecord → Int → String → List StudentRecord
  | [], _, _ => []
  | r :: rs, sid, g =>
    if r.user_id == sid then { r with grades := g } :: rs
    else r :: updateFirstRecord rs sid g

/-- The grade upsert shared by `edit_grades` and the CSV import loop:
look up the StudentRecord by `user_id`; update its grades in place when
present, otherwise add a fresh record. -/
def setGrades (st : DB) (sid : Int) (g : String) : DB :=
  match findRecord st sid with
  | some _ => { st with records := updateFirstRecord st.records sid g }
  | none =>
    { st with
      records := st.records ++ [⟨st.nextRecordId, sid, g⟩],
      nextRecordId := st.nextRecordId + 1 }

/-- Result of a read-only gated route: 404 from `first_or_404`, the
403 "Access denied" response, or the rendered payload. -/
inductive Res (α : Type) where
  | notFound : Res α
  | accessDenied : Res α
  | ok : α → Res α
deriving DecidableEq, Repr

/-- Route `/student/<int:id>`: look the target student up (404 when absent),
deny a student actor viewing someone else, otherwise render the student,
their optional record and their assignments. -/
def student_record (st : DB) (actor : User) (target : Int) :
    Res (User × Option StudentRecord × List Assignment) :=
  match findStudent st target with
  | none => Res.notFound
  | some student =>
    if actor.role == "student" && actor.id != student.id then Res.accessDenied
    else
      Res.ok (student, findRecord st student.id,
        st.assignments.filter (fun a => a.student_id == student.id))

/-- Result of the grade-edit POST: 403, or the new state (with the
"Grades updated." flash and redirect abstracted away into `ok`). -/
inductive EditResult where
  | accessDenied : EditResult
  | ok : DB → EditResult
deriving DecidableEq, Repr

/-- Route `/edit-grades` POST: staff/professor only, then the single upsert. -/
def edit_grades (st : DB) (actor : User) (sid : Int) (g : String) : EditResult :=
  if actor.role != "staff" && actor.role != "professor" then EditResult.accessDenied
  else EditResult.ok (setGrades st sid g)

/-- Python whitespace characters, as used by `str.split()` and `int()`. -/
def pyWhitespace (c : Char) : Bool :=
  c == ' ' || c == '\t' || c == '\n' || c == '\r' || c == '\x0b' || c == '\x0c'

/-- One decimal digit. -/
def digitVal (c : Char) : Option Nat :=
  if '0' ≤ c && c ≤ '9' then some (c.toNat - '0'.toNat) else none

/-- Accumulate decimal digits; fails on any non-digit. -/
def parseDigitsAux : List Char → Nat → Option Nat
  | [], acc => some acc
  | c :: cs, acc =>
    match digitVal c with
    | some d => parseDigitsAux cs (acc * 10 + d)
    | none => none

/-- A non-empty all-digit string. -/
def parseNatDigits : List Char → Option Nat
  | [] => none
  | cs => parseDigitsAux cs 0

/-- Strip leading and trailing Python whitespace. -/
def stripWs (cs : List Char) : List Char :=
  ((cs.dropWhile pyWhitespace).reverse.dropWhile pyWhitespace).reverse

/-- Python's `int(s)` on a string: optional surrounding whitespace, optional
sign, decimal digits; anything else raises ValueError (`none` here).
(Underscore digit grouping, which Python also accepts, is not modelled.) -/
def parsePyInt (s : String) : Option Int :=
  match stripWs s.data with
  | '+' :: cs => (parseNatDigits cs).map Int.ofNat
  | '-' :: cs => (parseNatDigits cs).map (fun n => -(n : Int))
  | cs => (parseNatDigits cs).map Int.ofNat

/-- One CSV row as produced by `csv.DictReader`: header-name/cell pairs. -/
abbrev Row := List (String × String)

/-- The `try` block of the import loop: `int(row['student_id'])` and
`row['grades']`; a missing key (KeyError) or a bad integer (ValueError)
makes the whole row malformed. -/
def parseRow (row : Row) : Option (Int × String) :=
  match List.lookup "student_id" row, List.lookup "grades" row with
  | some sidStr, some g => (parsePyInt sidStr).map (fun sid => (sid, g))
  | _, _ => none

/-- One iteration of the import loop: skip a malformed row (`continue`),
apply a well-formed one via the upsert. -/
def applyRow (st : DB) (row : Row) : DB :=
  match parseRow row with
  | none => st
  | some (sid, g) => setGrades st sid g

/-- The whole import loop over the parsed rows, in input order. -/
def uploadRows (st : DB) (rows : List Row) : DB :=
  rows.foldl applyRow st

/-- Result of the CSV-upload POST: 403, the "No file uploaded" flash, or the
new state together with the flash message shown to the caller. -/
inductive CsvResult where
  | accessDenied : CsvResult
  | noFile : CsvResult
  | ok : DB → String → CsvResult
deriving DecidableEq, Repr

/-- Route `/upload-grades` POST: staff/professor only; reads the CSV rows and
runs the import loop, then flashes a fixed message and redirects. -/
def upload_grades_csv (st : DB) (actor : User) (rows? : Option (List Row)) :
    CsvResult :=
  if actor.role != "staff" && actor.role != "professor" then CsvResult.accessDenied
  else
    match rows? with
    | none => CsvResult.noFile
    | some rows => CsvResult.ok (uploadRows st rows) "CSV Grades uploaded."

/-- The NFKD-normalize-then-`encode("ascii","ignore")` step of werkzeug's
`secure_filename`, modelled as dropping non-ASCII code points. -/
def asciiOnly (s : String) : String :=
  String.mk (s.data.filter (fun c => c.toNat < 128))

/-- Worker for `str.split()`: walk the characters, accumulating the current
word; whitespace ends a word, and empty pieces are discarded. -/
def splitWsAux : List Char → List Char → List String
  | [], acc => if acc.isEmpty then [] else [String.mk acc.reverse]
  | c :: cs, acc =>
    if pyWhitespace c then
      if acc.isEmpty then splitWsAux cs []
      else String.mk acc.reverse :: splitWsAux cs []
    else splitWsAux cs (c :: acc)

/-- Python's `str.split()` with no argument: split on whitespace runs,
discarding empty pieces. -/
def pySplit (s : String) : List String :=
  splitWsAux s.data []

/-- `filename.replace(sep, " ")` for the single-character POSIX separator. -/
def sepToSpace (s : String) : String :=
  String.mk (s.data.map (fun c => if c == '/' then ' ' else c))

/-- The characters werkzeug's `_filename_ascii_strip_re` keeps:
`[A-Za-z0-9_.-]`. -/
def allowedFilenameChar (c : Char) : Bool :=
  ('A' ≤ c && c ≤ 'Z') || ('a' ≤ c && c ≤ 'z') || ('0' ≤ c && c ≤ '9') ||
    c == '_' || c == '.' || c == '-'

/-- The characters `str.strip("._")` strips. -/
def isDotOrUnderscore (c : Char) : Bool :=
  c == '.' || c == '_'

/-- Python's `str.strip("._")`: drop leading and trailing dots and underscores. -/
def stripDotsUnderscores (s : String) : String :=
  String.mk (((s.data.dropWhile isDotOrUnderscore).reverse.dropWhile
    isDotOrUnderscore).reverse)

/-- werkzeug's `secure_filename` on POSIX (`os.sep = "/"`, no altsep):
ASCII-fold, turn separators into spaces, collapse whitespace with
underscores, drop disallowed characters, strip edge dots/underscores. -/
def secure_filename (raw : String) : String :=
  let ascii := asciiOnly raw
  let noSep := sepToSpace ascii
  let joined := String.intercalate "_" (pySplit noSep)
  let filtered := String.mk (joined.data.filter allowedFilenameChar)
  stripDotsUnderscores filtered

/-- Result of the assignment-upload POST: 403, the two flash-and-redirect
error paths, the propagated exception when the file save fails, or the
new state and the new row's id. -/
inductive UploadResult where
  | accessDenied : UploadResult
  | noFilePart : UploadResult
  | noSelectedFile : UploadResult
  | storageFailure : UploadResult
  | uploaded : Int → UploadResult
deriving DecidableEq, Repr

/-- Route `/upload-assignment` POST: students only; `file?` is the request's
`assignment` part (`none` when missing) carrying the raw client filename, and
`saveOk` is whether the blob store accepts `file.save(filepath)` (a failure
raises, aborting the request before any row is added). -/
def upload_assignment (st : DB) (actor : User) (file? : Option String)
    (saveOk : Bool) : UploadResult × DB :=
  if actor.role != "student" then (UploadResult.accessDenied, st)
  else
    match file? with
    | none => (UploadResult.noFilePart, st)
    | some rawName =>
      if rawName == "" then (UploadResult.noSelectedFile, st)
      else
        let filename := secure_filename rawName
        let filepath := "uploads/" ++ filename
        if !saveOk then (UploadResult.storageFailure, st)
        else
          (UploadResult.uploaded st.nextAssignmentId,
            { st with
              assignments := st.assignments ++
                [⟨st.nextAssignmentId, actor.id, filename, filepath⟩],
              nextAssignmentId := st.nextAssignmentId + 1 })

/-- The quote-doubling of a quoted CSV field. -/
def escapeQuotes (s : String) : String :=
  String.mk (s.data.foldr
    (fun c acc => if c == '"' then '"' :: '"' :: acc else c :: acc) [])

/-- One field under `csv.writer`'s default excel dialect: QUOTE_MINIMAL, so a
field holding a comma, quote or line break is wrapped in doubled quotes. -/
def csvField (f : String) : String :=
  if f.data.any (fun c => c == ',' || c == '"' || c == '\r' || c == '\n')
  then "\"" ++ escapeQuotes f ++ "\""
  else f

/-- `csv.writer.writerow`: comma-joined fields and the default CRLF
line terminator. -/
def csvRow (fs : List String) : String :=
  String.intercalate "," (fs.map csvField) ++ "\r\n"

/-- One code point of Python's `str.encode("utf-8")`, as byte values. -/
def utf8EncodeCharNat (c : Char) : List Nat :=
  let n := c.toNat
  if n < 128 then [n]
  else if n < 2048 then [192 + n / 64, 128 + n % 64]
  else if n < 65536 then [224 + n / 4096, 128 + (n / 64) % 64, 128 + n % 64]
  else [240 + n / 262144, 128 + (n / 4096) % 64, 128 + (n / 64) % 64, 128 + n % 64]

/-- Python's `str.encode("utf-8")`. -/
def utf8Encode (s : String) : List Nat :=
  s.data.foldr (fun c acc => utf8EncodeCharNat c ++ acc) []

/-- The record's grades, or the `N/A` placeholder when no StudentRecord
exists: `record.grades if record else 'N/A'`. -/
def gradesOrNA (record : Option StudentRecord) : String :=
  match record with
  | some r => r.grades
  | none => "N/A"

/-- Route `/export/csv/<int:id>`: 404 on a missing student, 403 for a student
actor exporting someone else, otherwise the UTF-8 bytes of a two-row CSV. -/
def export_csv (st : DB) (actor : User) (target : Int) : Res (List Nat) :=
  match findStudent st target with
  | none => Res.notFound
  | some student =>
    if actor.role == "student" && actor.id != student.id then Res.accessDenied
    else
      let record := findRecord st student.id
      Res.ok (utf8Encode (csvRow ["Username", "Grades"] ++
        csvRow [student.username, gradesOrNA record]))

/-- Route `/export/pdf/<int:id>`: same gating as the CSV export; the PDF is
modelled as its drawn text: the `(x, y, string)` calls made on the canvas. -/
def export_pdf (st : DB) (actor : User) (target : Int) :
    Res (List (Nat × Nat × String)) :=
  match findStudent st target with
  | none => Res.notFound
  | some student =>
    if actor.role == "student" && actor.id != student.id then Res.accessDenied
    else
      let record := findRecord st student.id
      Res.ok [(100, 800, "Student Record for " ++ student.username),
        (100, 780, "Grades: " ++ gradesOrNA record)]

/-- A `datetime.datetime` value (UTC, no tzinfo), as the source uses it. -/
structure PyDateTime where
  year : Nat
  month : Nat
  day : Nat
  hour : Nat
  minute : Nat
  second : Nat
  microsecond : Nat
deriving DecidableEq, Repr

/-- Gregorian leap year, as `datetime` uses it. -/
def isLeap (y : Nat) : Bool :=
  (y % 4 == 0 && y % 100 != 0) || y % 400 == 0

/-- Days in a month. -/
def daysInMonth (y m : Nat) : Nat :=
  if m == 2 then (if isLeap y then 29 else 28)
  else if m == 4 || m == 6 || m == 9 || m == 11 then 30
  else 31

/-- Advance one calendar day, keeping the time of day. -/
def nextDay (d : PyDateTime) : PyDateTime :=
  if d.day < daysInMonth d.year d.month then { d with day := d.day + 1 }
  else if d.month < 12 then { d with day := 1, month := d.month + 1 }
  else { d with day := 1, month := 1, year := d.year + 1 }

/-- `d + timedelta(days=n)`. -/
def addDays (d : PyDateTime) : Nat → PyDateTime
  | 0 => d
  | n + 1 => nextDay (addDays d n)

/-- Zero-pad to two digits. -/
def pad2 (n : Nat) : String :=
  if n < 10 then "0" ++ toString n else toString n

/-- Zero-pad to four digits. -/
def pad4 (n : Nat) : String :=
  if n < 10 then "000" ++ toString n
  else if n < 100 then "00" ++ toString n
  else if n < 1000 then "0" ++ toString n
  else toString n

/-- Zero-pad to six digits. -/
def pad6 (n : Nat) : String :=
  if n < 10 then "00000" ++ toString n
  else if n < 100 then "0000" ++ toString n
  else if n < 1000 then "000" ++ toString n
  else if n < 10000 then "00" ++ toString n
  else if n < 100000 then "0" ++ toString n
  else toString n

/-- `datetime.isoformat()`: `YYYY-MM-DDTHH:MM:SS`, with `.ffffff` appended
only when the microsecond field is non-zero. -/
def isoformat (d : PyDateTime) : String :=
  pad4 d.year ++ "-" ++ pad2 d.month ++ "-" ++ pad2 d.day ++ "T" ++
    pad2 d.hour ++ ":" ++ pad2 d.minute ++ ":" ++ pad2 d.second ++
    (if d.microsecond == 0 then "" else "." ++ pad6 d.microsecond)

/-- SQLite's comparison of two text values: byte-wise, which on UTF-8 data is
code-point-lexicographic. `true` iff `a <= b`. -/
def strLeChars : List Char → List Char → Bool
  | [], _ => true
  | _ :: _, [] => false
  | a :: as, b :: bs =>
    if a < b then true
    else if b < a then false
    else strLeChars as bs

/-- `Schedule.time <= upcoming` as SQLite evaluates it on strings. -/
def sqliteStrLe (a b : String) : Bool :=
  strLeChars a.data b.data

/-- Route `/reminders`: Schedule rows of the logged-in user whose `time`
string is at most `(now + timedelta(days=3)).isoformat()`, rendered as the
JSON `{event, time}` pairs. -/
def reminders (st : DB) (uid : Int) (now : PyDateTime) : List (String × String) :=
  let upcoming := addDays now 3
  (st.schedules.filter
    (fun e => e.user_id == uid && sqliteStrLe e.time (isoformat upcoming))).map
    (fun e => (e.event, e.time))

/-- One grade-writing operation of the spec's invariant: a single
`edit_grades` POST or one whole `upload_grades_csv` batch. -/
inductive GradeOp where
  | set : Int → String → GradeOp
  | importCsv : List Row → GradeOp

/-- The state transition of one grade-writing operation (the mutation behind
the route, after its role gate). -/
def applyGradeOp (st : DB) : GradeOp → DB
  | GradeOp.set sid g => setGrades st sid g
  | GradeOp.importCsv rows => uploadRows st rows

/-- At most one StudentRecord per `user_id`: the records list has pairwise
distinct `user_id`s. -/
def atMostOnePerUser (st : DB) : Prop :=
  st.records.Pairwise (fun a b => a.user_id ≠ b.user_id)

instance (st : DB) : Decidable (atMostOnePerUser st) := by
  unfold atMostOnePerUser; infer_instance

/-! ### Concrete fixtures used by witnesses and examples -/

/-- A student user. -/
def alice : User := ⟨1, "alice", "student"⟩

/-- A second student user, with a stored grade record in `exSt`. -/
def bob : User := ⟨2, "bob", "student"⟩

/-- A staff user. -/
def carol : User := ⟨3, "carol", "staff"⟩

/-- A small database: three users and one grade record (bob's). -/
def exSt : DB := ⟨[alice, bob, carol], [⟨10, 2, "B+"⟩], [], [], 11, 1⟩

/-- The spec's bulk-import example rows: ids 1 and 2 are well-formed, the
middle row's `student_id` is not an integer. -/
def rows3 : List Row :=
  [[("student_id", "1"), ("grades", "A")],
   [("student_id", "bad"), ("grades", "B")],
   [("student_id", "2"), ("grades", "C")]]

/-- The same rows with the malformed row removed. -/
def rows2 : List Row :=
  [[("student_id", "1"), ("grades", "A")],
   [("student_id", "2"), ("grades", "C")]]

/-- A database with no grade records, for the import example. -/
def exSt2 : DB := ⟨[alice, bob, carol], [], [], [], 51, 1⟩

/-- The state `exSt2` reaches after importing `rows3`: records for students
1 and 2 only. -/
def exStF : DB := ⟨[alice, bob, carol], [⟨51, 1, "A"⟩, ⟨52, 2, "C"⟩], [], [], 53, 1⟩

/-- A concrete `utcnow()` for the reminder example. -/
def exNow : PyDateTime := ⟨2026, 10, 12, 9, 30, 0, 0⟩

/-- Schedules for user 1 at `exNow + 1 day` and `exNow + 4 days`. -/
def exSt3 : DB :=
  ⟨[alice], [], [],
    [⟨1, 1, "tomorrow", isoformat (addDays exNow 1)⟩,
     ⟨2, 1, "later", isoformat (addDays exNow 4)⟩], 1, 1⟩

/-! ### Lemmas about the record upsert -/

theorem findRecord_user_id {st : DB} {sid : Int} {r : StudentRecord}
    (h : findRecord st sid = some r) : r.user_id = sid := by
  have hp := List.find?_some h
  simpa using hp

theorem updateFirst_map_user_id (rs : List StudentRecord) (sid : Int) (g : String) :
    (updateFirstRecord rs sid g).map (fun r => r.user_id) =
      rs.map (fun r => r.user_id) := by
  induction rs with
  | nil => rfl
  | cons a rs ih =>
    unfold updateFirstRecord
    by_cases h : (a.user_id == sid) = true <;> simp [h, ih]

theorem find?_updateFirst {rs : List StudentRecord} {sid : Int} {r : StudentRecord}
    (g : String) (h : rs.find? (fun x => x.user_id == sid) = some r) :
    (updateFirstRecord rs sid g).find? (fun x => x.user_id == sid) =
      some { r with grades := g } := by
  induction rs with
  | nil => simp at h
  | cons a rs ih =>
    by_cases ha : (a.user_id == sid) = true
    · simp [ha] at h
      subst h
      simp [updateFirstRecord, ha]
    · simp [ha] at h
      simp [updateFirstRecord, ha, ih h]

theorem find?_append_of_none {α : Type} {p : α → Bool} {l₁ : List α}
    (h : l₁.find? p = none) (l₂ : List α) :
    (l₁ ++ l₂).find? p = l₂.find? p := by
  simp [List.find?_append, h]

theorem updateFirst_updateFirst (rs : List StudentRecord) (sid : Int) (g : String) :
    updateFirstRecord (updateFirstRecord rs sid g) sid g =
      updateFirstRecord rs sid g := by
  induction rs with
  | nil => rfl
  | cons a rs ih =>
    by_cases h : (a.user_id == sid) = true
    · simp [updateFirstRecord, h]
    · simp [updateFirstRecord, h, ih]

theorem updateFirst_append_of_none {rs : List StudentRecord} {sid : Int}
    (h : rs.find? (fun x => x.user_id == sid) = none) (rs₂ : List StudentRecord)
    (g : String) :
    updateFirstRecord (rs ++ rs₂) sid g = rs ++ updateFirstRecord rs₂ sid g := by
  induction rs with
  | nil => rfl
  | cons a rs ih =>
    by_cases ha : (a.user_id == sid) = true
    · simp [ha] at h
    · simp [ha] at h
      have hn : rs.find? (fun x => x.user_id == sid) = none :=
        List.find?_eq_none.mpr (fun x hx => by simpa using h x hx)
      simp [updateFirstRecord, ha, ih hn]

theorem setGrades_of_found {st : DB} {sid : Int} {r : StudentRecord}
    (h : findRecord st sid = some r) (g : String) :
    setGrades st sid g = { st with records := updateFirstRecord st.records sid g } := by
  simp [setGrades, h]

theorem setGrades_of_absent {st : DB} {sid : Int}
    (h : findRecord st sid = none) (g : String) :
    setGrades st sid g =
      { st with
        records := st.records ++ [⟨st.nextRecordId, sid, g⟩],
        nextRecordId := st.nextRecordId + 1 } := by
  simp [setGrades, h]

theorem setGrades_idem (st : DB) (sid : Int) (g : String) :
    setGrades (setGrades st sid g) sid g = setGrades st sid g := by
  cases h : findRecord st sid with
  | some r =>
    have h1 := setGrades_of_found h g
    have h2 : findRecord (setGrades st sid g) sid = some { r with grades := g } := by
      rw [h1]
      exact find?_updateFirst g h
    rw [setGrades_of_found h2 g, h1]
    simp [updateFirst_updateFirst]
  | none =>
    have h1 := setGrades_of_absent h g
    have h2 : findRecord (setGrades st sid g) sid =
        some ⟨st.nextRecordId, sid, g⟩ := by
      rw [h1]
      show (st.records ++ [(⟨st.nextRecordId, sid, g⟩ : StudentRecord)]).find? _ = _
      rw [find?_append_of_none h]
      simp
    rw [setGrades_of_found h2 g, h1]
    simp only [DB.mk.injEq, and_true, true_and]
    show updateFirstRecord (st.records ++ [(⟨st.nextRecordId, sid, g⟩ : StudentRecord)]) sid g = _
    rw [updateFirst_append_of_none h]
    simp [updateFirstRecord]

theorem findRecord_setGrades (st : DB) (sid : Int) (g : String) :
    ∃ i, findRecord (setGrades st sid g) sid = some ⟨i, sid, g⟩ := by
  cases h : findRecord st sid with
  | some r =>
    refine ⟨r.id, ?_⟩
    rw [setGrades_of_found h g]
    have h2 : findRecord { st with records := updateFirstRecord st.records sid g } sid =
        some { r with grades := g } := find?_updateFirst g h
    rw [h2]
    have := findRecord_user_id h
    simp [this]
  | none =>
    refine ⟨st.nextRecordId, ?_⟩
    rw [setGrades_of_absent h g]
    show (st.records ++ [(⟨st.nextRecordId, sid, g⟩ : StudentRecord)]).find? _ = _
    rw [find?_append_of_none h]
    simp

/-! ### Lemmas about the one-record-per-student invariant -/

theorem pairwise_updateFirst {rs : List StudentRecord} {sid : Int} {g : String}
    (h : rs.Pairwise (fun a b => a.user_id ≠ b.user_id)) :
    (updateFirstRecord rs sid g).Pairwise (fun a b => a.user_id ≠ b.user_id) := by
  have key : ∀ l : List StudentRecord,
      l.Pairwise (fun a b => a.user_id ≠ b.user_id) ↔
        (l.map (fun r => r.user_id)).Pairwise (fun a b => a ≠ b) := by
    intro l
    rw [List.pairwise_map]
  rw [key, updateFirst_map_user_id, ← key]
  exact h

theorem setGrades_inv {st : DB} (h : atMostOnePerUser st) (sid : Int) (g : String) :
    atMostOnePerUser (setGrades st sid g) := by
  unfold atMostOnePerUser at *
  cases hf : findRecord st sid with
  | some r =>
    rw [setGrades_of_found hf g]
    exact pairwise_updateFirst h
  | none =>
    rw [setGrades_of_absent hf g]
    show (st.records ++ [(⟨st.nextRecordId, sid, g⟩ : StudentRecord)]).Pairwise _
    rw [List.pairwise_append]
    refine ⟨h, List.pairwise_singleton _ _, ?_⟩
    intro a ha b hb
    have hne := List.find?_eq_none.mp hf a ha
    simp only [List.mem_singleton] at hb
    subst hb
    simpa using hne

theorem applyRow_inv {st : DB} (h : atMostOnePerUser st) (row : Row) :
    atMostOnePerUser (applyRow st row) := by
  unfold applyRow
  cases parseRow row with
  | none => exact h
  | some p => exact setGrades_inv h p.1 p.2

theorem uploadRows_inv {st : DB} (h : atMostOnePerUser st) (rows : List Row) :
    atMostOnePerUser (uploadRows st rows) := by
  induction rows generalizing st with
  | nil => exact h
  | cons r rows ih => exact ih (applyRow_inv h r)

theorem applyGradeOp_inv {st : DB} (h : atMostOnePerUser st) (op : GradeOp) :
    atMostOnePerUser (applyGradeOp st op) := by
  cases op with
  | set sid g => exact setGrades_inv h sid g
  | importCsv rows => exact uploadRows_inv h rows

theorem countP_le_one_of_pairwise {rs : List StudentRecord}
    (h : rs.Pairwise (fun a b => a.user_id ≠ b.user_id)) (s : Int) :
    rs.countP (fun r => r.user_id == s) ≤ 1 := by
  induction rs with
  | nil => simp
  | cons a rs ih =>
    rcases List.pairwise_cons.mp h with ⟨ha, h'⟩
    by_cases hs : (a.user_id == s) = true
    · have hzero : rs.countP (fun r => r.user_id == s) = 0 := by
        rw [List.countP_eq_zero]
        intro b hb
        have := ha b hb
        have hais : a.user_id = s := by simpa using hs
        simp [← hais, Ne.symm this]
      rw [List.countP_cons, hzero]
      simp [hs]
    · rw [List.countP_cons]
      simp only [hs]
      simpa using ih h'

theorem foldl_gradeOps_inv (ops : List GradeOp) (st : DB)
    (h : atMostOnePerUser st) :
    atMostOnePerUser (ops.foldl applyGradeOp st) := by
  induction ops generalizing st with
  | nil => exact h
  | cons op ops ih => exact ih _ (applyGradeOp_inv h op)

/-! ### Lemmas about route gating -/

theorem findStudent_props {st : DB} {target : Int} {u : User}
    (h : findStudent st target = some u) : u.id = target ∧ u.role = "student" := by
  have hp := List.find?_some h
  simpa using hp

/-! ### The claims -/

/-- C8: `setGrades` is idempotent: for every student id and grades text,
running the upsert twice with the same arguments leaves the same stored
state as running it once. -/
theorem claim_C8_setGrades_idempotent :
    ∀ (st : DB) (sid : Int) (g : String),
      setGrades (setGrades st sid g) sid g = setGrades st sid g :=
  setGrades_idem

/-- C2: starting from a state with at most one StudentRecord per user id,
any sequence of `edit_grades` upserts and `upload_grades_csv` batches
preserves that invariant: afterwards, every user id has at most one
StudentRecord (stated both as pairwise-distinct `user_id`s and as a
count bound). -/
theorem claim_C2_one_record_per_user (ops : List GradeOp) (st : DB)
    (h : atMostOnePerUser st) :
    atMostOnePerUser (ops.foldl applyGradeOp st) ∧
    ∀ s : Int,
      ((ops.foldl applyGradeOp st).records.countP (fun r => r.user_id == s)) ≤ 1 := by
  have hinv := foldl_gradeOps_inv ops st h
  exact ⟨hinv, countP_le_one_of_pairwise hinv⟩

/-- Witness for C2 at a concrete state and operation sequence. -/
theorem claim_C2_witness :
    atMostOnePerUser
      (([GradeOp.set 1 "A", GradeOp.importCsv rows3]).foldl applyGradeOp exSt) ∧
    ∀ s : Int,
      ((([GradeOp.set 1 "A", GradeOp.importCsv rows3]).foldl applyGradeOp
        exSt).records.countP (fun r => r.user_id == s)) ≤ 1 :=
  claim_C2_one_record_per_user [GradeOp.set 1 "A", GradeOp.importCsv rows3] exSt
    (by decide)

/-- C10: the grade upsert consults only the records table, never the users
table: its result is independent of the users list, it always leaves a
record with the target id and grades, a staff actor's `edit_grades` always
succeeds, and a CSV row is applied even for an id (here `-7`) that no route
could ever have created a User for. -/
theorem claim_C10_upsert_checks_no_user :
    (∀ (st : DB) (us : List User) (sid : Int) (g : String),
      setGrades { st with users := us } sid g =
        { setGrades st sid g with users := us }) ∧
    (∀ (st : DB) (sid : Int) (g : String),
      ∃ i, findRecord (setGrades st sid g) sid = some ⟨i, sid, g⟩) ∧
    (∀ (st : DB) (sid : Int) (g : String),
      edit_grades st carol sid g = EditResult.ok (setGrades st sid g)) ∧
    (∀ (st : DB) (g : String),
      uploadRows st [[("student_id", "-7"), ("grades", g)]] =
        setGrades st (-7) g) := by
  refine ⟨?_, findRecord_setGrades, ?_, ?_⟩
  · intro st us sid g
    cases h : findRecord st sid with
    | some r =>
      have h2 : findRecord { st with users := us } sid = some r := h
      rw [setGrades_of_found h g, setGrades_of_found h2 g]
    | none =>
      have h2 : findRecord { st with users := us } sid = none := h
      rw [setGrades_of_absent h g, setGrades_of_absent h2 g]
  · intro st sid g
    rfl
  · intro st g
    rfl

/-- C5: the Assignment row exists only downstream of a successful blob
write: when `file.save` fails the request aborts with the state untouched
and nothing is reported uploaded, and when it succeeds the only change to
the assignments table is the single new row whose id is reported back. -/
theorem claim_C5_blob_write_gates_row :
    ∀ (st : DB) (actor : User) (file? : Option String),
      ((upload_assignment st actor file? false).2 = st ∧
        ∀ i, (upload_assignment st actor file? false).1 ≠ UploadResult.uploaded i) ∧
      ((upload_assignment st actor file? true).2.assignments = st.assignments ∨
        ∃ a, (upload_assignment st actor file? true).2.assignments =
            st.assignments ++ [a] ∧
          (upload_assignment st actor file? true).1 = UploadResult.uploaded a.id) := by
  intro st actor file?
  cases file? with
  | none =>
    by_cases h : (actor.role != "student") = true <;>
      simp [upload_assignment, h]
  | some raw =>
    by_cases h : (actor.role != "student") = true
    · simp [upload_assignment, h]
    · by_cases he : (raw == "") = true
      · simp [upload_assignment, h, he]
      · refine ⟨by simp [upload_assignment, h, he],
          Or.inr ⟨⟨st.nextAssignmentId, actor.id, secure_filename raw,
            "uploads/" ++ secure_filename raw⟩, ?_, ?_⟩⟩ <;>
          simp [upload_assignment, h, he]

/-- C1: when the target id belongs to some student, a student actor acting
on a different id is answered `Access denied` by all three gated routes
(the 403 constructor, not any weaker outcome), while the same actor acting
on its own id gets the rendered/ exported payload. -/
theorem claim_C1_student_actor_scoping (st : DB) (actor : User) (target : Int)
    (hrole : actor.role = "student")
    (hstud : (findStudent st target).isSome = true) :
    (actor.id ≠ target →
      student_record st actor target = Res.accessDenied ∧
      export_pdf st actor target = Res.accessDenied ∧
      export_csv st actor target = Res.accessDenied) ∧
    (actor.id = target →
      (∃ x, student_record st actor target = Res.ok x) ∧
      (∃ x, export_pdf st actor target = Res.ok x) ∧
      (∃ x, export_csv st actor target = Res.ok x)) := by
  obtain ⟨u, hu⟩ := Option.isSome_iff_exists.mp hstud
  obtain ⟨huid, hurole⟩ := findStudent_props hu
  constructor
  · intro hne
    have hcond : (actor.role == "student" && actor.id != u.id) = true := by
      simp [hrole, huid, hne]
    refine ⟨?_, ?_, ?_⟩ <;>
      simp [student_record, export_pdf, export_csv, hu, hcond]
  · intro heq
    have hcond : (actor.role == "student" && actor.id != u.id) = false := by
      simp [huid, heq]
    refine ⟨⟨(u, findRecord st u.id,
        st.assignments.filter (fun a => a.student_id == u.id)), ?_⟩,
      ⟨[(100, 800, "Student Record for " ++ u.username),
        (100, 780, "Grades: " ++ gradesOrNA (findRecord st u.id))], ?_⟩,
      ⟨utf8Encode (csvRow ["Username", "Grades"] ++
        csvRow [u.username, gradesOrNA (findRecord st u.id)]), ?_⟩⟩ <;>
      simp [student_record, export_pdf, export_csv, hu, hcond]

/-- Witness for C1: the student alice is denied on bob's id and served on
her own id. -/
theorem claim_C1_witness :
    (student_record exSt alice 2 = Res.accessDenied ∧
      export_pdf exSt alice 2 = Res.accessDenied ∧
      export_csv exSt alice 2 = Res.accessDenied) ∧
    ((∃ x, student_record exSt alice 1 = Res.ok x) ∧
      (∃ x, export_pdf exSt alice 1 = Res.ok x) ∧
      (∃ x, export_csv exSt alice 1 = Res.ok x)) :=
  ⟨(claim_C1_student_actor_scoping exSt alice 2 rfl (by decide)).1 (by decide),
    (claim_C1_student_actor_scoping exSt alice 1 rfl (by decide)).2 rfl⟩

/-- C9: when no user with the target id has role `student`, all three gated
routes answer 404 for every actor — the `first_or_404` existence lookup
runs before the role check, so even an unauthorized probe learns
`NotFound`, not `AccessDenied`. -/
theorem claim_C9_lookup_before_auth (st : DB) (actor : User) (target : Int)
    (hno : ∀ u ∈ st.users, u.id = target → u.role ≠ "student") :
    student_record st actor target = Res.notFound ∧
    export_pdf st actor target = Res.notFound ∧
    export_csv st actor target = Res.notFound := by
  have hfind : findStudent st target = none := by
    apply List.find?_eq_none.mpr
    intro u hu
    simp only [Bool.and_eq_true, beq_iff_eq, not_and]
    exact hno u hu
  exact ⟨by simp [student_record, hfind], by simp [export_pdf, hfind],
    by simp [export_csv, hfind]⟩

/-- Witness for C9: the student alice probing the staff user carol's id
gets 404 from all three routes. -/
theorem claim_C9_witness :
    student_record exSt alice 3 = Res.notFound ∧
    export_pdf exSt alice 3 = Res.notFound ∧
    export_csv exSt alice 3 = Res.notFound :=
  claim_C9_lookup_before_auth exSt alice 3 (by decide)

/-- C6: for an authorized export of an existing student, the CSV payload is
the UTF-8 bytes of exactly two CSV rows — the `Username,Grades` header and
one data row with the username and the grades text, `N/A` when no record
exists — and the PDF export succeeds on the same states with the same
grades-or-`N/A` text; neither fails for want of a StudentRecord. -/
theorem claim_C6_export_shape (st : DB) (actor : User) (target : Int) (u : User)
    (hstud : findStudent st target = some u)
    (hauth : ¬(actor.role = "student" ∧ actor.id ≠ u.id)) :
    ∃ g, export_csv st actor target =
        Res.ok (utf8Encode (csvRow ["Username", "Grades"] ++
          csvRow [u.username, g])) ∧
      (findRecord st u.id = none → g = "N/A") ∧
      (∀ r, findRecord st u.id = some r → g = r.grades) ∧
      export_pdf st actor target =
        Res.ok [(100, 800, "Student Record for " ++ u.username),
          (100, 780, "Grades: " ++ g)] := by
  have hcond : (actor.role == "student" && actor.id != u.id) = false := by
    rcases Classical.em (actor.role = "student") with h1 | h1
    · have h2 : actor.id = u.id := by
        by_contra h2
        exact hauth ⟨h1, h2⟩
      simp [h2]
    · simp [h1]
  refine ⟨gradesOrNA (findRecord st u.id), ?_, ?_, ?_, ?_⟩
  · simp [export_csv, hstud, hcond]
  · intro h
    simp [gradesOrNA, h]
  · intro r h
    simp [gradesOrNA, h]
  · simp [export_pdf, hstud, hcond]

/-- Witness for C6: staff carol exporting bob (record `B+` present) and the
student alice exporting herself (no record, so `N/A`). -/
theorem claim_C6_witness :
    (∃ g, export_csv exSt carol 2 =
        Res.ok (utf8Encode (csvRow ["Username", "Grades"] ++
          csvRow ["bob", g])) ∧
      (findRecord exSt 2 = none → g = "N/A") ∧
      (∀ r, findRecord exSt 2 = some r → g = r.grades) ∧
      export_pdf exSt carol 2 =
        Res.ok [(100, 800, "Student Record for " ++ "bob"),
          (100, 780, "Grades: " ++ g)]) ∧
    (∃ g, export_csv exSt alice 1 =
        Res.ok (utf8Encode (csvRow ["Username", "Grades"] ++
          csvRow ["alice", g])) ∧
      (findRecord exSt 1 = none → g = "N/A") ∧
      (∀ r, findRecord exSt 1 = some r → g = r.grades) ∧
      export_pdf exSt alice 1 =
        Res.ok [(100, 800, "Student Record for " ++ "alice"),
          (100, 780, "Grades: " ++ g)]) :=
  ⟨claim_C6_export_shape exSt carol 2 bob (by decide) (by decide),
    claim_C6_export_shape exSt alice 1 alice (by decide) (by decide)⟩

/-! ### Lemmas for the CSV import and the filename sanitizer -/

theorem uploadRows_eq_filterMap (st : DB) (rows : List Row) :
    uploadRows st rows =
      (rows.filterMap parseRow).foldl (fun s p => setGrades s p.1 p.2) st := by
  induction rows generalizing st with
  | nil => rfl
  | cons r rows ih =>
    cases h : parseRow r with
    | none =>
      show uploadRows (applyRow st r) rows = _
      rw [List.filterMap_cons_none h,
        show applyRow st r = st from by simp [applyRow, h]]
      exact ih st
    | some p =>
      show uploadRows (applyRow st r) rows = _
      rw [List.filterMap_cons_some h, List.foldl_cons,
        show applyRow st r = setGrades st p.1 p.2 from by simp [applyRow, h]]
      exact ih _

theorem mem_of_mem_stripDotsUnderscores {c : Char} {s : String}
    (h : c ∈ (stripDotsUnderscores s).data) : c ∈ s.data := by
  have h1 : c ∈ ((s.data.dropWhile isDotOrUnderscore).reverse.dropWhile
      isDotOrUnderscore).reverse := h
  rw [List.mem_reverse] at h1
  have h2 := (List.dropWhile_sublist _).subset h1
  rw [List.mem_reverse] at h2
  exact (List.dropWhile_sublist _).subset h2

theorem secure_filename_chars {raw : String} {c : Char}
    (h : c ∈ (secure_filename raw).data) : allowedFilenameChar c = true := by
  simp only [secure_filename] at h
  have h1 := mem_of_mem_stripDotsUnderscores h
  exact (List.mem_filter.mp h1).2

theorem char_le_toNat {a b : Char} (h : a ≤ b) : a.toNat ≤ b.toNat := by
  rw [Char.le_def] at h
  exact h

theorem allowedFilenameChar_props {c : Char} (h : allowedFilenameChar c = true) :
    c ≠ '/' ∧ 32 ≤ c.toNat := by
  constructor
  · rintro rfl
    exact absurd h (by decide)
  · unfold allowedFilenameChar at h
    simp only [Bool.or_eq_true, Bool.and_eq_true, decide_eq_true_eq,
      beq_iff_eq] at h
    have e1 : ('A' : Char).toNat = 65 := rfl
    have e2 : ('a' : Char).toNat = 97 := rfl
    have e3 : ('0' : Char).toNat = 48 := rfl
    rcases h with ((((⟨h1, _⟩ | ⟨h1, _⟩) | ⟨h1, _⟩) | rfl) | rfl) | rfl
    · have := char_le_toNat h1
      rw [e1] at this
      omega
    · have := char_le_toNat h1
      rw [e2] at this
      omega
    · have := char_le_toNat h1
      rw [e3] at this
      omega
    · decide
    · decide
    · decide

/-! ### The remaining claims -/

/-- C3 counterexample: the import of the three example rows (one malformed)
is indistinguishable, as a complete route result, from importing only the
two well-formed rows — the response is the fixed flash
"CSV Grades uploaded.", so no `{appliedCount, skippedRows}` summary is
returned to the caller. -/
theorem claim_C3_no_summary_returned :
    upload_grades_csv exSt2 carol (some rows3) =
      upload_grades_csv exSt2 carol (some rows2) ∧
    upload_grades_csv exSt2 carol (some rows3) =
      CsvResult.ok exStF "CSV Grades uploaded." := by
  constructor
  · decide
  · decide

/-- C3 (amended): the import processes rows in input order, skips malformed
rows without aborting the batch, and applies every well-formed row through
the upsert; it reports a fixed flash message rather than a per-row summary.
On the example rows, users 1 and 2 end with grades "A" and "C" and the
malformed row leaves no record. -/
theorem claim_C3_import_row_handling :
    (∀ (st : DB) (rows : List Row),
      uploadRows st rows =
        (rows.filterMap parseRow).foldl (fun s p => setGrades s p.1 p.2) st) ∧
    parseRow [("student_id", "bad"), ("grades", "B")] = none ∧
    upload_grades_csv exSt2 carol (some rows3) =
      CsvResult.ok exStF "CSV Grades uploaded." ∧
    findRecord exStF 1 = some ⟨51, 1, "A"⟩ ∧
    findRecord exStF 2 = some ⟨52, 2, "C"⟩ ∧
    exStF.records.length = 2 :=
  ⟨uploadRows_eq_filterMap, by decide, by decide, by decide, by decide, by decide⟩

/-- C4: the sanitizer is real — every character of `secure_filename`'s
output is from `[A-Za-z0-9_.-]`, so no path separators and no control
characters, and `"../../etc/passwd"` becomes `"etc_passwd"` — but the code
never rejects an empty sanitized name: the all-separator filename
`"/////"` sanitizes to `""` and the route still records an Assignment row
with an empty filename instead of failing with a validation error. -/
theorem claim_C4_sanitize_no_empty_reject :
    (∀ (raw : String), ∀ c ∈ (secure_filename raw).data,
      allowedFilenameChar c = true ∧ c ≠ '/' ∧ 32 ≤ c.toNat) ∧
    secure_filename "../../etc/passwd" = "etc_passwd" ∧
    secure_filename "/////" = "" ∧
    upload_assignment exSt alice (some "/////") true =
      (UploadResult.uploaded 1,
        { exSt with
          assignments := [⟨1, 1, "", "uploads/"⟩],
          nextAssignmentId := 2 }) := by
  refine ⟨?_, by decide, by decide, by decide⟩
  intro raw c hc
  have ha := secure_filename_chars hc
  exact ⟨ha, (allowedFilenameChar_props ha).1, (allowedFilenameChar_props ha).2⟩

/-- C7: the reminders route returns exactly the caller's Schedule rows
whose time string is lexicographically at most the ISO form of
`now + 3 days`; concretely, of two events at `now + 1 day` and
`now + 4 days` only the first is returned. -/
theorem claim_C7_reminder_window :
    (∀ (st : DB) (uid : Int) (now : PyDateTime) (ev t : String),
      (ev, t) ∈ reminders st uid now ↔
        ∃ e : Schedule, e ∈ st.schedules ∧ e.user_id = uid ∧
          sqliteStrLe e.time (isoformat (addDays now 3)) = true ∧
          e.event = ev ∧ e.time = t) ∧
    reminders exSt3 1 exNow = [("tomorrow", isoformat (addDays exNow 1))] := by
  constructor
  · intro st uid now ev t
    unfold reminders
    simp only [List.mem_map, List.mem_filter, Bool.and_eq_true, beq_iff_eq]
    constructor
    · rintro ⟨e, ⟨hmem, huid, htime⟩, heq⟩
      rw [Prod.mk.injEq] at heq
      exact ⟨e, hmem, huid, htime, heq.1, heq.2⟩
    · rintro ⟨e, hmem, huid, htime, hev, ht⟩
      exact ⟨e, ⟨hmem, huid, htime⟩, by rw [hev, ht]⟩
  · decide

end App
